import Mathlib

/-!
# Verification of the notes_app_backend school-management slice

Shallow embedding of the authentication / faculty-registration /
class-uniqueness slice of the `notes_app_backend` repository
(Express + Mongoose).  Mongo collections become Lean lists of documents,
route handlers become pure state-passing functions, and the external
collaborators (bcrypt, jsonwebtoken) are modelled symbolically by their
contracts.  Machine-facing details (ObjectIds) are modelled as `Nat`.
-/

namespace NotesApp

/-! ## String helpers mirroring the JavaScript primitives used by the code

The sources under verification only ever apply these primitives to ASCII
data, so each is embedded as a structural function on the character list
of the string (which also keeps every definition evaluable). -/

/-- JavaScript `s.toUpperCase()` (mongoose `uppercase: true` setter). -/
def jsToUpper (s : String) : String := ⟨s.data.map Char.toUpper⟩

/-- JavaScript `s.toLowerCase()` (mongoose `lowercase: true` setter). -/
def jsToLower (s : String) : String := ⟨s.data.map Char.toLower⟩

/-- JavaScript `s.trim()` (mongoose `trim: true` setter). -/
def jsTrim (s : String) : String :=
  ⟨((s.data.dropWhile Char.isWhitespace).reverse.dropWhile Char.isWhitespace).reverse⟩

/-- JavaScript `s.slice(0, n)`. -/
def jsTake (s : String) (n : Nat) : String := ⟨s.data.take n⟩

/-- JavaScript `s.slice(n)`. -/
def jsDropN (s : String) (n : Nat) : String := ⟨s.data.drop n⟩

/-- JavaScript `s.length` (the data here is ASCII). -/
def jsLength (s : String) : Nat := s.data.length

/-- Every character of `s` satisfies `p` (regex character classes). -/
def jsAll (s : String) (p : Char → Bool) : Bool := s.data.all p

/-- JavaScript `s.startsWith(p)`. -/
def strStartsWith (s p : String) : Bool := p.data.isPrefixOf s.data

/-- `s.split(sep)` for a one-character separator (the only shape the
sources use, via `String.prototype.split` / regex alternatives). -/
def splitCharAux (sep : Char) : List Char → List Char → List String
  | [], acc => [⟨acc.reverse⟩]
  | c :: cs, acc =>
    if c = sep then ⟨acc.reverse⟩ :: splitCharAux sep cs []
    else splitCharAux sep cs (c :: acc)

def splitChar (sep : Char) (s : String) : List String :=
  splitCharAux sep s.data []

/-- JavaScript `String.prototype.padStart(4, '0')` applied to `toString n`
(faculty pre-save hook). -/
def padStart4 (n : Nat) : String :=
  let s := toString n
  if jsLength s < 4 then String.mk (List.replicate (4 - jsLength s) '0') ++ s else s

/-- JavaScript `s.slice(-2)`: the last two characters of `s`
(used on the year string in the faculty pre-save hook). -/
def sliceLastTwo (s : String) : String :=
  jsDropN s (jsLength s - 2)

/-- JavaScript truthiness of a possibly-absent string field:
`undefined` and the empty string are falsy. -/
def truthy : Option String → Bool
  | none => false
  | some s => s ≠ ""

/-! ## Documents and database state -/

/-- A document of the `Role` collection (`src/models/role.js`). -/
structure RoleDoc where
  rid : Nat
  name : String
  description : String
  isActive : Bool
  deriving Repr, DecidableEq

/-- A document of the `Faculty` collection (`src/models/faculty.js`,
second schema in the models file). -/
structure FacultyDoc where
  fid : Nat
  facultyId : Option String
  employeeId : Option String
  firstName : String
  lastName : String
  email : String
  mobileNumber : String
  gender : String
  department : String
  role : Nat
  isActive : Bool
  deriving Repr, DecidableEq

/-- A document of the `User` collection.  Modelled from the spec: the User
model file is not among the sources; the spec describes email (unique,
case-normalized), hashed password, role tag, mobile number and a
first-login flag. -/
structure UserDoc where
  uid : Nat
  email : String
  passwordHash : String
  role : String
  isFirstLogin : Bool
  firstName : String
  lastName : String
  mobileNumber : String
  deriving Repr, DecidableEq

/-- A document of the `Class` collection (`src/models/class.js`). -/
structure ClassDoc where
  cid : Nat
  name : String
  sect : String
  academicYear : String
  classTeacher : Nat
  capacity : Nat
  description : String
  createdBy : Nat
  deriving Repr, DecidableEq

/-- The database state visible to the handlers under verification. -/
structure DB where
  users : List UserDoc
  faculties : List FacultyDoc
  roles : List RoleDoc
  classes : List ClassDoc
  deriving Repr, DecidableEq

/-! ## Faculty schema: validators and the pre-save id-generation hook -/

/-- `/^[a-zA-Z\s]+$/` with the schema's length bounds (first/last name). -/
def validName (s : String) : Bool :=
  2 ≤ jsLength s && jsLength s ≤ 50 && jsAll s (fun c => c.isAlpha || c.isWhitespace)

/-- Faculty email pattern `/^[a-zA-Z0-9._-]+@[a-zA-Z0-9.-]+\.[a-zA-Z]{2,}$/`:
one `@`, a nonempty local part over the local character class, and a domain
that ends in a dot followed by at least two letters. -/
def emailLocalChar (c : Char) : Bool :=
  c.isAlpha || c.isDigit || c = '.' || c = '_' || c = '-'

def emailDomainChar (c : Char) : Bool :=
  c.isAlpha || c.isDigit || c = '.' || c = '-'

def emailDomainOk (d : String) : Bool :=
  let parts := splitChar '.' d
  match parts.getLast? with
  | none => false
  | some tld =>
      2 ≤ parts.length &&
      2 ≤ jsLength tld && jsAll tld Char.isAlpha &&
      jsLength tld + 2 ≤ jsLength d &&
      jsAll d emailDomainChar

def emailValid (s : String) : Bool :=
  match splitChar '@' s with
  | [localPart, domain] =>
      localPart ≠ "" && jsAll localPart emailLocalChar && emailDomainOk domain
  | _ => false

/-- Faculty mobile pattern `/^(\+\d{1,3}[-\s]?)?\d{10}$/`. -/
def mobileValid (s : String) : Bool :=
  match s.data with
  | '+' :: r =>
    let cc := r.takeWhile Char.isDigit
    match r.drop cc.length with
    | [] => 11 ≤ cc.length && cc.length ≤ 13
    | sep :: tail =>
        (sep = '-' || sep = ' ') && 1 ≤ cc.length && cc.length ≤ 3 &&
        tail.length = 10 && tail.all Char.isDigit
  | _ => s.data.length = 10 && s.data.all Char.isDigit

/-- Department validator: length at least 2 and `/^[a-zA-Z\s&-]+$/`. -/
def validDepartment (s : String) : Bool :=
  2 ≤ jsLength s && jsAll s (fun c => c.isAlpha || c.isWhitespace || c = '&' || c = '-')

/-- Gender enum of the faculty schema. -/
def validGender (s : String) : Bool :=
  s = "Male" || s = "Female" || s = "Other"

/-- Conjunction of the faculty schema's field validators. -/
def facultyFieldsValid (f : FacultyDoc) : Bool :=
  validName f.firstName && validName f.lastName &&
  emailValid f.email && mobileValid f.mobileNumber &&
  validGender f.gender && validDepartment f.department

/-- The first `facultySchema.pre('save')` hook: generate `employeeId` and
`facultyId` from the current year, the department code and the current
count of Faculty documents, skipping generation when both ids are already
(truthily) set and leaving any individually set id untouched. -/
def genIds (year count : Nat) (f : FacultyDoc) : FacultyDoc :=
  if truthy f.employeeId && truthy f.facultyId then f
  else
    let currentYear := sliceLastTwo (toString year)
    let departmentCode := jsToUpper (jsTake f.department 3)
    let sequence := padStart4 (count + 1)
    let eid := "FAC-" ++ currentYear ++ "-" ++ departmentCode ++ "-" ++ sequence
    let fcid := "F" ++ currentYear ++ departmentCode ++ sequence
    let f1 := if truthy f.employeeId then f else { f with employeeId := some eid }
    if truthy f1.facultyId then f1 else { f1 with facultyId := some fcid }

/-! ## Saving documents -/

/-- Symbolic model of the password-hashing collaborator (`bcryptjs`):
`hash`/`compare` contract, idealized as an injective tagging. -/
def bcryptHash (plain : String) : String :=
  "bcrypt$" ++ plain

/-- `bcrypt.compare(candidate, stored)`: succeeds exactly when the stored
hash is the hash of the candidate. -/
def bcryptCompare (candidate stored : String) : Bool :=
  stored = bcryptHash candidate

/-- The combined `trim` + `lowercase` setters applied to stored email
fields (the order of the two setters does not affect the stored value). -/
def normalizeEmail (s : String) : String :=
  jsToLower (jsTrim s)

/-- Violation of the faculty collection's unique indexes: `email`,
`mobileNumber`, and the sparse unique `facultyId` / `employeeId`. -/
def facultyUniqueClash (fs : List FacultyDoc) (f : FacultyDoc) : Bool :=
  fs.any fun g =>
    g.email == f.email || g.mobileNumber == f.mobileNumber ||
    (truthy g.facultyId && g.facultyId == f.facultyId) ||
    (truthy g.employeeId && g.employeeId == f.employeeId)

/-- `faculty.save()`: runs the pre-save hooks (id generation with the
collection count, then the active-role re-check), the schema validators,
and the unique indexes; any failure rejects the save. -/
def facultySave (db : DB) (year : Nat) (f0 : FacultyDoc) : Except String FacultyDoc :=
  let f1 := genIds year db.faculties.length f0
  if ¬ db.roles.any (fun ro => ro.rid == f1.role && ro.isActive) then
    .error "Selected role does not exist or is inactive"
  else if ¬ facultyFieldsValid f1 then
    .error "ValidationError"
  else if facultyUniqueClash db.faculties f1 then
    .error "duplicate key"
  else
    .ok f1

/-- `user.save()`.  Modelled from the spec: the User model file is not
among the sources; the spec gives a unique, case-normalized email (the
callers under verification lowercase it before constructing the
document, so the stored value is the one passed in), a unique mobile
number when present, and a password hashed by a pre-save hook. -/
def userSave (db : DB) (u0 : UserDoc) : Except String UserDoc :=
  let u := { u0 with passwordHash := bcryptHash u0.passwordHash }
  if db.users.any (fun v => v.email == u.email) then
    .error "duplicate key"
  else if u.mobileNumber ≠ "" && db.users.any (fun v => v.mobileNumber == u.mobileNumber) then
    .error "duplicate key"
  else
    .ok u

/-! ## Faculty registration (`POST /api/faculty/add`, faculty routes file) -/

/-- Request body of `POST /api/faculty/add`. -/
structure FacultyAddReq where
  firstName : String
  lastName : String
  email : String
  mobileNumber : String
  gender : String
  department : String
  role : Nat
  deriving Repr, DecidableEq

/-- Outcome of `POST /api/faculty/add`. -/
inductive FacultyAddResult where
  | dupEmailErr
  | invalidRoleErr
  | saveErr (msg : String)
  | created (f : FacultyDoc) (u : UserDoc) (username pwd : String)
  deriving Repr, DecidableEq

/-- HTTP status of each faculty-add outcome (save failures surface as 400
for validation / duplicate-key errors per the route's catch clause; the
generic 500 is not distinguished here because every modelled failure is
one of those two). -/
def facultyAddStatus : FacultyAddResult → Nat
  | .dupEmailErr => 400
  | .invalidRoleErr => 400
  | .saveErr _ => 400
  | .created _ _ _ _ => 201

/-- Full result of the handler: response, resulting database state, and
whether a transaction session was opened. -/
structure FacultyAddOut where
  resp : FacultyAddResult
  db : DB
  txnOpened : Bool
  deriving Repr, DecidableEq

/-- The `new Faculty({...})` document built by the add handler; the
schema setters trim every field and lowercase the email. -/
def mkFacultyDoc (newFid : Nat) (r : FacultyAddReq) : FacultyDoc :=
  { fid := newFid, facultyId := none, employeeId := none,
    firstName := jsTrim r.firstName, lastName := jsTrim r.lastName,
    email := normalizeEmail r.email, mobileNumber := jsTrim r.mobileNumber,
    gender := r.gender, department := jsTrim r.department,
    role := r.role, isActive := true }

/-- Role tag of the User record created alongside a Faculty.  Modelled
from the spec: the User model file is not among the sources; its role tag
is one of the closed enumeration with plain `user` as the unmarked case. -/
def defaultUserRole : String := "user"

/-- The `new User({...})` document built by the add handler: lowercased
email, the default password `Admin@123` (hashed on save), and a first-login
flag set to force a password change. -/
def mkLinkedUserDoc (newUid : Nat) (r : FacultyAddReq) : UserDoc :=
  { uid := newUid, email := jsToLower r.email, passwordHash := "Admin@123",
    role := defaultUserRole, isFirstLogin := true,
    firstName := r.firstName, lastName := r.lastName,
    mobileNumber := r.mobileNumber }

/-- `router.post('/add')` of the faculty routes: duplicate-email
pre-check, active-role pre-check, then a transaction that saves the
Faculty and the linked User and commits, aborting (leaving the database
unchanged) if either save fails. -/
def registerFaculty (db : DB) (r : FacultyAddReq) (year newFid newUid : Nat) :
    FacultyAddOut :=
  if db.users.any (fun u => u.email == jsToLower r.email) then
    ⟨.dupEmailErr, db, false⟩
  else if ¬ db.roles.any (fun ro => ro.rid == r.role && ro.isActive) then
    ⟨.invalidRoleErr, db, false⟩
  else
    match facultySave db year (mkFacultyDoc newFid r) with
    | .error e => ⟨.saveErr e, db, true⟩
    | .ok f =>
      let dbSession := { db with faculties := db.faculties ++ [f] }
      match userSave dbSession (mkLinkedUserDoc newUid r) with
      | .error e => ⟨.saveErr e, db, true⟩
      | .ok u =>
        ⟨.created f u (jsToLower r.email) "Admin@123",
         { dbSession with users := dbSession.users ++ [u] }, true⟩

/-! ## Identity tokens (`jsonwebtoken` collaborator, symbolic model) -/

/-- The claims object the routes pass to `jwt.sign` (signup / login /
student login embed `userId`, `role`, `email`, `firstName`, `lastName`;
the faculty login variant reuses the same shape). -/
structure Claims where
  userId : Nat
  role : String
  email : String
  firstName : String
  lastName : String
  deriving Repr, DecidableEq

/-- Payload of a signed token: claims plus issued-at / expiry instants
(seconds). -/
structure JwtPayload where
  claims : Claims
  iat : Nat
  exp : Nat
  deriving Repr, DecidableEq

/-- Symbolic MAC: a signature is valid for a payload exactly when it is
the pair of the signing secret and that payload. -/
structure JwtSig where
  secret : String
  signedPayload : JwtPayload
  deriving Repr, DecidableEq

/-- A wire token: either a structurally well-formed signed token or a
malformed string. -/
inductive Token where
  | signed (payload : JwtPayload) (sig : JwtSig)
  | malformed (raw : String)
  deriving Repr, DecidableEq

inductive JwtError where
  | malformedTok
  | badSignature
  | expired
  deriving Repr, DecidableEq

/-- The process-wide signing secret (`src/middleware/auth.js`). -/
def jwtSecret : String := "notes-app-secret-key-2024"

/-- `expiresIn: '24h'` in seconds, as passed at every `jwt.sign` site. -/
def expiresIn24h : Nat := 86400

/-- `jwt.sign(claims, secret, { expiresIn })` at clock `now`. -/
def jwtSign (claims : Claims) (secret : String) (now ttl : Nat) : Token :=
  .signed ⟨claims, now, now + ttl⟩ ⟨secret, ⟨claims, now, now + ttl⟩⟩

/-- `jwt.verify(token, secret)` at clock `now`: rejects malformed tokens
and bad signatures, rejects tokens whose expiry instant has been reached,
and otherwise returns the embedded claims. -/
def jwtVerify (t : Token) (secret : String) (now : Nat) : Except JwtError Claims :=
  match t with
  | .malformed _ => .error .malformedTok
  | .signed p sig =>
    if sig ≠ ⟨secret, p⟩ then .error .badSignature
    else if p.exp ≤ now then .error .expired
    else .ok p.claims

/-! ## Authorization middleware (`src/middleware/auth.js`) -/

/-- The merged identity the middleware attaches to the request
(`req.user`): the decoded claims with `_id` and `role` overwritten from
the freshly loaded User record. -/
structure Ident where
  tokenClaims : Claims
  dbId : Nat
  dbRole : String
  deriving Repr, DecidableEq

/-- The `auth` middleware.  `decode` stands for the wire-format parsing
done inside `jsonwebtoken` (an arbitrary function from header remainders
to tokens); the middleware itself checks header presence, the
`Bearer `-prefix, token verification against the process secret, and
that the token's `userId` resolves to an existing User. -/
def authMiddleware (db : DB) (decode : String → Token)
    (authHeader : Option String) (now : Nat) : Except Unit Ident :=
  match authHeader with
  | none => .error ()
  | some h =>
    if ¬ strStartsWith h "Bearer " then .error ()
    else
      match jwtVerify (decode (jsDropN h 7)) jwtSecret now with
      | .error _ => .error ()
      | .ok claims =>
        match db.users.find? (fun u => u.uid == claims.userId) with
        | none => .error ()
        | some u => .ok ⟨claims, u.uid, u.role⟩

/-- A protected route: the middleware rejects with 401 (never invoking
the handler) or passes the merged identity to the handler. -/
def protectedRoute (db : DB) (decode : String → Token)
    (authHeader : Option String) (now : Nat)
    (handler : Ident → Nat × DB) : Nat × DB :=
  match authMiddleware db decode authHeader now with
  | .error _ => (401, db)
  | .ok ident => handler ident

/-! ## Faculty change-password (`POST /api/auth/faculty/change-password`) -/

inductive ChangePwResp where
  | missingFields
  | tooShort
  | unauthorized
  | wrongCurrent
  | defaultPwd
  | changed
  deriving Repr, DecidableEq

/-- HTTP status of each change-password outcome, per the handler. -/
def changePwStatus : ChangePwResp → Nat
  | .missingFields => 400
  | .tooShort => 400
  | .unauthorized => 401
  | .wrongCurrent => 401
  | .defaultPwd => 400
  | .changed => 200

/-- Replace the user with id `uid` by `upd` applied to it. -/
def updateUser (us : List UserDoc) (uid : Nat) (upd : UserDoc → UserDoc) :
    List UserDoc :=
  us.map fun u => if u.uid == uid then upd u else u

/-- `router.post('/faculty/change-password')`: requires both fields, a
new password of at least 6 characters, an existing faculty user behind
the authenticated id, a matching current password, and a new password
different from the default faculty password `Fcl@1234`; on success the
password is re-hashed and the first-login flag cleared. -/
def changePasswordFaculty (db : DB) (authUserId : Nat)
    (currentPassword newPassword : String) : ChangePwResp × DB :=
  if currentPassword = "" || newPassword = "" then (.missingFields, db)
  else if jsLength newPassword < 6 then (.tooShort, db)
  else
    match db.users.find? (fun u => u.uid == authUserId) with
    | none => (.unauthorized, db)
    | some user =>
      if user.role ≠ "faculty" then (.unauthorized, db)
      else if ¬ bcryptCompare currentPassword user.passwordHash then
        (.wrongCurrent, db)
      else if newPassword = "Fcl@1234" then (.defaultPwd, db)
      else
        (.changed,
         { db with users := updateUser db.users user.uid fun u =>
            { u with passwordHash := bcryptHash newPassword, isFirstLogin := false } })

/-! ## Class collection indexes (`src/models/class.js`, module load) -/

/-- The two indexes declared on `classSchema`. -/
inductive IndexSpec where
  | uniqueClassSectionYear
  | textSearch
  deriving Repr, DecidableEq

/-- The schema's declared indexes: the case-insensitive (collation
strength 2) unique compound index on (name, section, academicYear), and
the text index. -/
def classSchemaIndexes : List IndexSpec := [.uniqueClassSectionYear, .textSearch]

/-- Build the declared indexes on the collection (mongoose auto-index of
the schema declarations), skipping ones already present. -/
def createIndexes (st : List IndexSpec) (decls : List IndexSpec) : List IndexSpec :=
  st ++ decls.filter (fun i => ¬ st.contains i)

/-- `collection.dropIndexes()`: removes every (secondary) index. -/
def dropAllIndexes (_st : List IndexSpec) : List IndexSpec := []

/-- The index operations issued while loading `src/models/class.js`, in
source order: the schema's index declarations are registered (built by
mongoose when the model initializes), and then line 96 issues
`dropIndexes()` on the Class collection as soon as the model compiles. -/
def classModelLoad (st : List IndexSpec) : List IndexSpec :=
  dropAllIndexes (createIndexes st classSchemaIndexes)

/-! ## Class creation (`POST /api/class/add`, `src/routes/user.js`) -/

/-- `/^\d{4}-\d{4}$/` on the academic year. -/
def academicYearValid (s : String) : Bool :=
  match splitChar '-' s with
  | [a, b] => jsLength a = 4 && jsAll a Char.isDigit && jsLength b = 4 && jsAll b Char.isDigit
  | _ => false

/-- The class schema's field validators (lengths, year pattern, capacity
bounds, description bound) plus the async class-teacher validator, which
requires the referenced Faculty to exist. -/
def classFieldsValid (db : DB) (c : ClassDoc) : Bool :=
  1 ≤ jsLength c.name && jsLength c.name ≤ 50 &&
  1 ≤ jsLength c.sect && jsLength c.sect ≤ 10 &&
  academicYearValid c.academicYear &&
  db.faculties.any (fun f => f.fid == c.classTeacher) &&
  1 ≤ c.capacity && c.capacity ≤ 200 &&
  jsLength c.description ≤ 200

/-- Request body of `POST /api/class/add`; `classTeacher` is `none` when
the submitted id string is not a valid ObjectId. -/
structure ClassAddReq where
  name : String
  sect : String
  academicYear : String
  classTeacher : Option Nat
  capacity : Nat
  description : String
  deriving Repr, DecidableEq

inductive ClassAddResp where
  | missingFields
  | badTeacherId
  | teacherNotFound
  | duplicate
  | validationErr
  | created (c : ClassDoc)
  deriving Repr, DecidableEq

def classAddStatus : ClassAddResp → Nat
  | .missingFields => 400
  | .badTeacherId => 400
  | .teacherNotFound => 400
  | .duplicate => 400
  | .validationErr => 400
  | .created _ => 201

/-- `router.post('/add')` of the class routes: required-field check,
ObjectId-format and Faculty existence checks on the teacher, the
duplicate pre-check on the trimmed name / uppercased section / trimmed
year, then construction and save of the Class document (the save runs the
schema validators; the collection-level unique index was dropped at model
load, so no duplicate-key path remains at the save). -/
def classAdd (db : DB) (r : ClassAddReq) (creatorId newCid : Nat) :
    ClassAddResp × DB :=
  if r.name = "" || r.sect = "" || r.academicYear = "" ||
      r.classTeacher.isNone || r.capacity = 0 then
    (.missingFields, db)
  else
    match r.classTeacher with
    | none => (.badTeacherId, db)
    | some t =>
      if ¬ db.faculties.any (fun f => f.fid == t) then (.teacherNotFound, db)
      else if db.classes.any (fun c =>
          c.name == jsTrim r.name && c.sect == jsToUpper (jsTrim r.sect) &&
          c.academicYear == jsTrim r.academicYear) then
        (.duplicate, db)
      else
        let c : ClassDoc :=
          { cid := newCid, name := jsTrim r.name, sect := jsToUpper (jsTrim r.sect),
            academicYear := jsTrim r.academicYear, classTeacher := t,
            capacity := r.capacity,
            description := if r.description = "" then "" else jsTrim r.description,
            createdBy := creatorId }
        if ¬ classFieldsValid db c then (.validationErr, db)
        else (.created c, { db with classes := db.classes ++ [c] })

/-! ## Class edit (`PUT /api/class/edit/:id`, `src/routes/user.js`) -/

/-- Teacher reference in an edit request: a valid ObjectId string, or any
other string, which the handler resolves as an employeeId. -/
inductive TeacherRef where
  | oid (t : Nat)
  | emp (e : String)
  deriving Repr, DecidableEq

structure ClassEditReq where
  name : String
  sect : String
  academicYear : String
  classTeacher : TeacherRef
  capacity : Nat
  description : String
  deriving Repr, DecidableEq

inductive ClassEditResp where
  | missingFields
  | teacherNotFound
  | classNotFound
  | duplicate
  | validationErr
  | updated (c : ClassDoc)
  deriving Repr, DecidableEq

def classEditStatus : ClassEditResp → Nat
  | .missingFields => 400
  | .teacherNotFound => 400
  | .classNotFound => 404
  | .duplicate => 400
  | .validationErr => 400
  | .updated _ => 200

/-- `router.put('/edit/:id')` of the class routes: required-field check,
employeeId resolution for non-ObjectId teacher references, existence of
the edited class, the duplicate pre-check excluding the edited document
(`_id: { $ne: req.params.id }`), then the validated update. -/
def classEdit (db : DB) (editId : Nat) (r : ClassEditReq) :
    ClassEditResp × DB :=
  if r.name = "" || r.sect = "" || r.academicYear = "" || r.capacity = 0 then
    (.missingFields, db)
  else
    let teacherId? : Option Nat :=
      match r.classTeacher with
      | .oid t => some t
      | .emp e => (db.faculties.find? (fun f => f.employeeId == some e)).map (·.fid)
    match teacherId? with
    | none => (.teacherNotFound, db)
    | some teacherId =>
      match db.classes.find? (fun c => c.cid == editId) with
      | none => (.classNotFound, db)
      | some _ =>
        if db.classes.any (fun c =>
            c.cid != editId && c.name == jsTrim r.name &&
            c.sect == jsToUpper (jsTrim r.sect) &&
            c.academicYear == jsTrim r.academicYear) then
          (.duplicate, db)
        else
          let updated : ClassDoc → ClassDoc := fun c =>
            { c with
              name := jsTrim r.name
              sect := jsToUpper (jsTrim r.sect)
              academicYear := jsTrim r.academicYear
              classTeacher := teacherId
              capacity := r.capacity
              description := if r.description = "" then "" else jsTrim r.description }
          match (db.classes.find? (fun c => c.cid == editId)).map updated with
          | none => (.classNotFound, db)
          | some c =>
            if ¬ classFieldsValid db c then (.validationErr, db)
            else
              (.updated c,
               { db with classes := db.classes.map fun d =>
                  if d.cid == editId then updated d else d })

/-! ## Role edit (`PUT /api/role/edit/:id`, `src/routes/role.js`) -/

inductive RoleEditResp where
  | missingName
  | roleNotFound
  | duplicate
  | validationErr
  | updated (ro : RoleDoc)
  deriving Repr, DecidableEq

def roleEditStatus : RoleEditResp → Nat
  | .missingName => 400
  | .roleNotFound => 404
  | .duplicate => 400
  | .validationErr => 400
  | .updated _ => 200

/-- Role name validator from `src/models/role.js` (required, trimmed,
length 2–50); the description is bounded by 200. -/
def roleFieldsValid (ro : RoleDoc) : Bool :=
  2 ≤ jsLength ro.name && jsLength ro.name ≤ 50 && jsLength ro.description ≤ 200

/-- `router.put('/edit/:id')` of the role routes: requires a name, an
active role behind the id, runs the duplicate pre-check only when the
submitted name differs from the stored one (excluding the edited role via
`_id: { $ne: roleId }`), then saves the trimmed update. -/
def roleEdit (db : DB) (roleId : Nat) (name description : String) :
    RoleEditResp × DB :=
  if name = "" then (.missingName, db)
  else
    match db.roles.find? (fun ro => ro.rid == roleId && ro.isActive) with
    | none => (.roleNotFound, db)
    | some role =>
      if name ≠ role.name &&
          db.roles.any (fun ro => ro.name == jsTrim name && ro.rid != roleId) then
        (.duplicate, db)
      else
        let updated : RoleDoc :=
          { role with
            name := jsTrim name
            description := if description = "" then "" else jsTrim description }
        if ¬ roleFieldsValid updated then (.validationErr, db)
        else
          (.updated updated,
           { db with roles := db.roles.map fun ro =>
              if ro.rid == roleId then updated else ro })

/-! ## Concrete fixtures (used by the witness theorems) -/

def exRole : RoleDoc :=
  { rid := 1, name := "Professor", description := "Teaching role", isActive := true }

def exFaculty : FacultyDoc :=
  { fid := 7, facultyId := some "F24COM0001", employeeId := some "FAC-24-COM-0001",
    firstName := "John", lastName := "Doe", email := "john.doe@example.com",
    mobileNumber := "9876543210", gender := "Male",
    department := "Computer Science", role := 1, isActive := true }

def exUserFaculty : UserDoc :=
  { uid := 3, email := "john.doe@example.com", passwordHash := bcryptHash "Admin@123",
    role := "faculty", isFirstLogin := true, firstName := "John", lastName := "Doe",
    mobileNumber := "9876543210" }

def exClass : ClassDoc :=
  { cid := 11, name := "10", sect := "A", academicYear := "2024-2025",
    classTeacher := 7, capacity := 40, description := "", createdBy := 3 }

def exDb : DB :=
  { users := [exUserFaculty], faculties := [exFaculty], roles := [exRole],
    classes := [exClass] }

def exAddReq : FacultyAddReq :=
  { firstName := "Jane", lastName := "Roe", email := "jane.roe@example.com",
    mobileNumber := "9876543211", gender := "Female",
    department := "Mathematics", role := 1 }

def exClaims : Claims :=
  { userId := 3, role := "faculty", email := "john.doe@example.com",
    firstName := "John", lastName := "Doe" }

/-! ## Theorems -/

/-- C3: a Faculty saved with neither id set gets
`employeeId = "FAC-" ++ (last two digits of the year) ++ "-" ++ (first
three characters of the department, uppercased) ++ "-" ++ (count + 1
zero-padded to four digits)` and `facultyId = "F"` followed by the same
three components without separators; a Faculty saved with both ids
already set keeps them unchanged. -/
theorem facultyIds_generation (year n : Nat) (f : FacultyDoc) :
    (f.employeeId = none → f.facultyId = none →
      (genIds year n f).employeeId =
        some ("FAC-" ++ sliceLastTwo (toString year) ++ "-" ++
          jsToUpper (jsTake f.department 3) ++ "-" ++ padStart4 (n + 1)) ∧
      (genIds year n f).facultyId =
        some ("F" ++ sliceLastTwo (toString year) ++
          jsToUpper (jsTake f.department 3) ++ padStart4 (n + 1))) ∧
    (truthy f.employeeId = true → truthy f.facultyId = true →
      genIds year n f = f) := by
  constructor
  · intro hE hF
    simp [genIds, truthy, hE, hF]
  · intro hE hF
    simp [genIds, hE, hF]

/-- Witness for C3 at a concrete faculty: generation on an unset pair and
immutability on a set pair. -/
theorem facultyIds_generation_witness :
    ({ exFaculty with facultyId := none, employeeId := none } : FacultyDoc).employeeId = none ∧
    ({ exFaculty with facultyId := none, employeeId := none } : FacultyDoc).facultyId = none ∧
    (genIds 2024 5 { exFaculty with facultyId := none, employeeId := none }).employeeId =
      some ("FAC-" ++ sliceLastTwo (toString 2024) ++ "-" ++
        jsToUpper (jsTake ({ exFaculty with facultyId := none, employeeId := none } : FacultyDoc).department 3) ++
        "-" ++ padStart4 (5 + 1)) ∧
    truthy exFaculty.employeeId = true ∧ truthy exFaculty.facultyId = true ∧
    genIds 2024 5 exFaculty = exFaculty := by
  refine ⟨rfl, rfl, ?_, by decide, by decide, ?_⟩
  · exact ((facultyIds_generation 2024 5 _).1 rfl rfl).1
  · exact (facultyIds_generation 2024 5 exFaculty).2 (by decide) (by decide)

/-- C4 (code bug): the claim says the case-insensitive unique index on
(name, section, academicYear) is kept in force on the Class collection
after the Class model is loaded; but the model file issues
`dropIndexes()` on the collection as soon as the model compiles, so the
load sequence ends with no secondary index at all, whatever indexes
existed before. -/
theorem classUniqueIndexDropped :
    (classModelLoad classSchemaIndexes).contains IndexSpec.uniqueClassSectionYear = false ∧
    ∀ st : List IndexSpec, classModelLoad st = [] :=
  ⟨rfl, fun _ => rfl⟩

/-- C5: verifying a token issued over some claims with the same secret
returns the original claims while strictly less than the 24-hour expiry
has elapsed, fails with an expiry error once it has elapsed, and fails on
a bad signature or a malformed token. -/
theorem jwt_roundtrip_expiry (claims : Claims) (t0 t1 : Nat)
    (p : JwtPayload) (sig : JwtSig) (raw : String) :
    (t1 - t0 < expiresIn24h →
      jwtVerify (jwtSign claims jwtSecret t0 expiresIn24h) jwtSecret t1 = .ok claims) ∧
    (expiresIn24h ≤ t1 - t0 →
      jwtVerify (jwtSign claims jwtSecret t0 expiresIn24h) jwtSecret t1 = .error .expired) ∧
    (sig ≠ ⟨jwtSecret, p⟩ →
      jwtVerify (.signed p sig) jwtSecret t1 = .error .badSignature) ∧
    jwtVerify (.malformed raw) jwtSecret t1 = .error .malformedTok := by
  refine ⟨?_, ?_, ?_, rfl⟩
  · intro h
    have e : expiresIn24h = 86400 := rfl
    rw [e] at h
    have hlt : ¬ (t0 + expiresIn24h ≤ t1) := by rw [e]; omega
    simp [jwtSign, jwtVerify, hlt]
  · intro h
    have e : expiresIn24h = 86400 := rfl
    rw [e] at h
    have hle : t0 + expiresIn24h ≤ t1 := by rw [e]; omega
    simp [jwtSign, jwtVerify, hle]
  · intro h
    simp [jwtVerify, h]

/-- Witness for C5 at concrete claims: round-trip three hours after
issuance, expiry failure exactly 24 hours after issuance, bad-signature
failure for a wrong-secret signature, malformed failure. -/
theorem jwt_roundtrip_expiry_witness :
    (10800 : Nat) - 0 < expiresIn24h ∧
    jwtVerify (jwtSign exClaims jwtSecret 0 expiresIn24h) jwtSecret 10800 = .ok exClaims ∧
    expiresIn24h ≤ (86400 : Nat) - 0 ∧
    jwtVerify (jwtSign exClaims jwtSecret 0 expiresIn24h) jwtSecret 86400 = .error .expired ∧
    (⟨"other-secret", ⟨exClaims, 0, 86400⟩⟩ : JwtSig) ≠ ⟨jwtSecret, ⟨exClaims, 0, 86400⟩⟩ ∧
    jwtVerify (.signed ⟨exClaims, 0, 86400⟩ ⟨"other-secret", ⟨exClaims, 0, 86400⟩⟩)
      jwtSecret 100 = .error .badSignature := by
  refine ⟨by decide, ?_, by decide, ?_, by decide, ?_⟩
  · exact (jwt_roundtrip_expiry exClaims 0 10800 ⟨exClaims, 0, 86400⟩
      ⟨jwtSecret, ⟨exClaims, 0, 86400⟩⟩ "x").1 (by decide)
  · exact (jwt_roundtrip_expiry exClaims 0 86400 ⟨exClaims, 0, 86400⟩
      ⟨jwtSecret, ⟨exClaims, 0, 86400⟩⟩ "x").2.1 (by decide)
  · exact (jwt_roundtrip_expiry exClaims 0 100 ⟨exClaims, 0, 86400⟩
      ⟨"other-secret", ⟨exClaims, 0, 86400⟩⟩ "x").2.2.1 (by decide)

/-- C6: a protected route answers 401 — and the downstream handler is
never invoked, whatever it is — when the Authorization header is absent,
does not start with `Bearer `, carries a token failing verification, or
carries a verified token whose userId resolves to no User. -/
theorem authMiddleware_rejects401 (db : DB) (decode : String → Token)
    (hdr : Option String) (now : Nat) (handler : Ident → Nat × DB) :
    (hdr = none → protectedRoute db decode hdr now handler = (401, db)) ∧
    (∀ h, hdr = some h → ¬ strStartsWith h "Bearer " →
      protectedRoute db decode hdr now handler = (401, db)) ∧
    (∀ h e, hdr = some h → jwtVerify (decode (jsDropN h 7)) jwtSecret now = .error e →
      protectedRoute db decode hdr now handler = (401, db)) ∧
    (∀ h claims, hdr = some h →
      jwtVerify (decode (jsDropN h 7)) jwtSecret now = .ok claims →
      db.users.find? (fun u => u.uid == claims.userId) = none →
      protectedRoute db decode hdr now handler = (401, db)) := by
  refine ⟨?_, ?_, ?_, ?_⟩
  · intro h
    simp [protectedRoute, authMiddleware, h]
  · intro h hh hb
    simp [protectedRoute, authMiddleware, hh, hb]
  · intro h e hh hv
    by_cases hb : strStartsWith h "Bearer " = true
    · simp [protectedRoute, authMiddleware, hh, hb, hv]
    · simp [protectedRoute, authMiddleware, hh, hb]
  · intro h claims hh hv hf
    by_cases hb : strStartsWith h "Bearer " = true
    · simp [protectedRoute, authMiddleware, hh, hb, hv, hf]
    · simp [protectedRoute, authMiddleware, hh, hb]

/-- Witness for C6 at concrete requests over the fixture database: an
absent header, a non-Bearer header, a header with an expired token, and a
header whose valid token names an unknown user id all produce 401. -/
theorem authMiddleware_rejects401_witness :
    ((none : Option String) = none ∧
      protectedRoute exDb (fun _ => .malformed "x") none 0 (fun _ => (200, exDb)) = (401, exDb)) ∧
    ((some "Basic abc" : Option String) = some "Basic abc" ∧
      ¬ strStartsWith "Basic abc" "Bearer " = true ∧
      protectedRoute exDb (fun _ => .malformed "x") (some "Basic abc") 0
        (fun _ => (200, exDb)) = (401, exDb)) ∧
    (jwtVerify ((fun _ => Token.malformed "x") (jsDropN "Bearer t" 7)) jwtSecret 0 =
        .error .malformedTok ∧
      protectedRoute exDb (fun _ => .malformed "x") (some "Bearer t") 0
        (fun _ => (200, exDb)) = (401, exDb)) ∧
    (jwtVerify ((fun _ => jwtSign { exClaims with userId := 99 } jwtSecret 0 expiresIn24h)
          (jsDropN "Bearer t" 7)) jwtSecret 0 = .ok { exClaims with userId := 99 } ∧
      exDb.users.find? (fun u => u.uid == (99 : Nat)) = none ∧
      protectedRoute exDb (fun _ => jwtSign { exClaims with userId := 99 } jwtSecret 0 expiresIn24h)
        (some "Bearer t") 0 (fun _ => (200, exDb)) = (401, exDb)) := by
  refine ⟨⟨rfl, ?_⟩, ⟨rfl, by decide, ?_⟩, ⟨rfl, ?_⟩, ⟨rfl, by decide, ?_⟩⟩
  · exact (authMiddleware_rejects401 exDb (fun _ => .malformed "x") none 0
      (fun _ => (200, exDb))).1 rfl
  · exact (authMiddleware_rejects401 exDb (fun _ => .malformed "x") (some "Basic abc") 0
      (fun _ => (200, exDb))).2.1 "Basic abc" rfl (by decide)
  · exact (authMiddleware_rejects401 exDb (fun _ => .malformed "x") (some "Bearer t") 0
      (fun _ => (200, exDb))).2.2.1 "Bearer t" .malformedTok rfl rfl
  · exact (authMiddleware_rejects401 exDb
      (fun _ => jwtSign { exClaims with userId := 99 } jwtSecret 0 expiresIn24h)
      (some "Bearer t") 0 (fun _ => (200, exDb))).2.2.2 "Bearer t"
      { exClaims with userId := 99 } rfl rfl (by decide)

/-- C7 counterexample: for a faculty user whose stored password is the
hash of `Admin@123`, submitting a wrong current password with a valid new
password yields status 401 — not the claimed 400 — while leaving the
database unchanged. -/
theorem facultyChangePassword_mismatch_cex :
    (changePasswordFaculty exDb 3 "Wrong@12" "Valid@123").1 = .wrongCurrent ∧
    changePwStatus (changePasswordFaculty exDb 3 "Wrong@12" "Valid@123").1 = 401 ∧
    (changePasswordFaculty exDb 3 "Wrong@12" "Valid@123").2 = exDb ∧
    (401 : Nat) ≠ 400 := by
  refine ⟨by decide, by decide, by decide, by decide⟩

/-- C7 (amended): faculty change-password rejects a new password shorter
than 6 characters with 400, rejects a mismatched current password with
401 (the claim said 400), rejects the default password `Fcl@1234` with
400 — each leaving the stored password unchanged — and otherwise updates
the password and clears the first-login flag. -/
theorem facultyChangePassword_behavior (db : DB) (uid : Nat)
    (cur new : String) (u : UserDoc)
    (hfind : db.users.find? (fun v => v.uid == uid) = some u)
    (hrole : u.role = "faculty")
    (hcur : cur ≠ "") (hnew : new ≠ "") :
    (jsLength new < 6 →
      changePasswordFaculty db uid cur new = (.tooShort, db) ∧
      changePwStatus .tooShort = 400) ∧
    (6 ≤ jsLength new → bcryptCompare cur u.passwordHash = false →
      changePasswordFaculty db uid cur new = (.wrongCurrent, db) ∧
      changePwStatus .wrongCurrent = 401) ∧
    (6 ≤ jsLength new → bcryptCompare cur u.passwordHash = true → new = "Fcl@1234" →
      changePasswordFaculty db uid cur new = (.defaultPwd, db) ∧
      changePwStatus .defaultPwd = 400) ∧
    (6 ≤ jsLength new → bcryptCompare cur u.passwordHash = true → new ≠ "Fcl@1234" →
      (changePasswordFaculty db uid cur new).1 = .changed ∧
      (changePasswordFaculty db uid cur new).2.users =
        updateUser db.users u.uid (fun v =>
          { v with passwordHash := bcryptHash new, isFirstLogin := false })) := by
  refine ⟨?_, ?_, ?_, ?_⟩
  · intro hlen
    exact ⟨by simp [changePasswordFaculty, hcur, hnew, hlen], rfl⟩
  · intro hlen hcmp
    have hnl : ¬ jsLength new < 6 := by omega
    exact ⟨by simp [changePasswordFaculty, hcur, hnew, hnl, hfind, hrole, hcmp], rfl⟩
  · intro hlen hcmp hdef
    subst hdef
    have hnl : ¬ jsLength "Fcl@1234" < 6 := by decide
    exact ⟨by simp [changePasswordFaculty, hcur, hnew, hnl, hfind, hrole, hcmp], rfl⟩
  · intro hlen hcmp hdef
    have hnl : ¬ jsLength new < 6 := by omega
    constructor
    · simp [changePasswordFaculty, hcur, hnew, hnl, hfind, hrole, hcmp, hdef]
    · simp [changePasswordFaculty, hcur, hnew, hnl, hfind, hrole, hcmp, hdef]

/-- Witness for C7's amended theorem at the fixture database: correct
current password and a fresh new password succeed and clear the
first-login flag. -/
theorem facultyChangePassword_behavior_witness :
    exDb.users.find? (fun v => v.uid == (3 : Nat)) = some exUserFaculty ∧
    exUserFaculty.role = "faculty" ∧
    (6 ≤ jsLength "NewPass@1" ∧ bcryptCompare "Admin@123" exUserFaculty.passwordHash = true ∧
      "NewPass@1" ≠ "Fcl@1234") ∧
    (changePasswordFaculty exDb 3 "Admin@123" "NewPass@1").1 = .changed ∧
    (changePasswordFaculty exDb 3 "Admin@123" "NewPass@1").2.users =
      updateUser exDb.users exUserFaculty.uid (fun v =>
        { v with passwordHash := bcryptHash "NewPass@1", isFirstLogin := false }) := by
  refine ⟨by decide, rfl, ⟨by decide, by decide, by decide⟩, ?_⟩
  exact (facultyChangePassword_behavior exDb 3 "Admin@123" "NewPass@1" exUserFaculty
    (by decide) rfl (by decide) (by decide)).2.2.2 (by decide) (by decide) (by decide)

/-- C2: with a duplicate email the faculty-add handler answers 400 with
the duplicate-email error — regardless of the role's validity, showing
the email check runs first — and with a free email but a missing or
inactive role it answers 400 with the invalid-role error; in both cases
the database is unchanged and no transaction was opened. -/
theorem registerFaculty_prechecks (db : DB) (r : FacultyAddReq) (year nf nu : Nat) :
    ((db.users.any fun u => u.email == jsToLower r.email) = true →
      registerFaculty db r year nf nu = ⟨.dupEmailErr, db, false⟩ ∧
      facultyAddStatus .dupEmailErr = 400) ∧
    ((db.users.any fun u => u.email == jsToLower r.email) = false →
      (db.roles.any fun ro => ro.rid == r.role && ro.isActive) = false →
      registerFaculty db r year nf nu = ⟨.invalidRoleErr, db, false⟩ ∧
      facultyAddStatus .invalidRoleErr = 400) := by
  constructor
  · intro hdup
    exact ⟨by simp [registerFaculty, hdup], rfl⟩
  · intro hdup hrole
    exact ⟨by simp [registerFaculty, hdup, hrole], rfl⟩

/-- Witness for C2 at the fixture database: a request reusing the
registered email is rejected as duplicate even though its role reference
is invalid, and a fresh email with an unknown role is rejected as
invalid-role; the database is untouched both times. -/
theorem registerFaculty_prechecks_witness :
    (exDb.users.any fun u =>
      u.email == jsToLower ({ exAddReq with email := "John.Doe@example.com", role := 99 } : FacultyAddReq).email) = true ∧
    registerFaculty exDb { exAddReq with email := "John.Doe@example.com", role := 99 } 2024 8 4 =
      ⟨.dupEmailErr, exDb, false⟩ ∧
    (exDb.users.any fun u =>
      u.email == jsToLower ({ exAddReq with role := 99 } : FacultyAddReq).email) = false ∧
    (exDb.roles.any fun ro =>
      ro.rid == ({ exAddReq with role := 99 } : FacultyAddReq).role && ro.isActive) = false ∧
    registerFaculty exDb { exAddReq with role := 99 } 2024 8 4 =
      ⟨.invalidRoleErr, exDb, false⟩ := by
  refine ⟨by decide, ?_, by decide, by decide, ?_⟩
  · exact ((registerFaculty_prechecks exDb
      { exAddReq with email := "John.Doe@example.com", role := 99 } 2024 8 4).1 (by decide)).1
  · exact ((registerFaculty_prechecks exDb
      { exAddReq with role := 99 } 2024 8 4).2 (by decide) (by decide)).1

/-! Helper lemmas about the save operations (shared by several claims). -/

theorem genIds_email (year count : Nat) (f : FacultyDoc) :
    (genIds year count f).email = f.email := by
  unfold genIds
  split
  · rfl
  · dsimp only
    split <;> split <;> rfl

theorem facultySave_ok_email (db : DB) (year : Nat) (f0 f : FacultyDoc)
    (h : facultySave db year f0 = .ok f) : f.email = f0.email := by
  unfold facultySave at h
  dsimp only at h
  split at h
  · exact absurd h (by simp)
  · split at h
    · exact absurd h (by simp)
    · split at h
      · exact absurd h (by simp)
      · injection h with h
        rw [← h, genIds_email]

theorem userSave_ok_fields (db : DB) (u0 u : UserDoc)
    (h : userSave db u0 = .ok u) :
    u.email = u0.email ∧ u.passwordHash = bcryptHash u0.passwordHash ∧
    u.isFirstLogin = u0.isFirstLogin := by
  unfold userSave at h
  dsimp only at h
  split at h
  · exact absurd h (by simp)
  · split at h
    · exact absurd h (by simp)
    · injection h with h
      rw [← h]
      exact ⟨rfl, rfl, rfl⟩

/-- C1: for a faculty-add request whose (whitespace-free) email belongs
to no existing User and whose role reference is an active Role, the
handler either fails inside the transaction leaving the database exactly
as it was, or succeeds having appended exactly one Faculty document and
exactly one User document carrying the same email; no state with one of
the two documents but not the other is ever left behind. -/
theorem registerFaculty_atomic (db : DB) (r : FacultyAddReq) (year nf nu : Nat)
    (hEmailFree : (db.users.any fun u => u.email == jsToLower r.email) = false)
    (hRole : (db.roles.any fun ro => ro.rid == r.role && ro.isActive) = true)
    (hTrim : jsTrim r.email = r.email) :
    ((∃ e, (registerFaculty db r year nf nu).resp = .saveErr e) ∧
      (registerFaculty db r year nf nu).db = db) ∨
    (∃ f u, (registerFaculty db r year nf nu).resp =
        .created f u (jsToLower r.email) "Admin@123" ∧
      (registerFaculty db r year nf nu).db.faculties = db.faculties ++ [f] ∧
      (registerFaculty db r year nf nu).db.users = db.users ++ [u] ∧
      (registerFaculty db r year nf nu).db.roles = db.roles ∧
      (registerFaculty db r year nf nu).db.classes = db.classes ∧
      u.email = f.email ∧
      (registerFaculty db r year nf nu).txnOpened = true) := by
  cases hfs : facultySave db year (mkFacultyDoc nf r) with
  | error e =>
    left
    constructor
    · exact ⟨e, by simp [registerFaculty, hEmailFree, hRole, hfs]⟩
    · simp [registerFaculty, hEmailFree, hRole, hfs]
  | ok f =>
    cases hus : userSave { db with faculties := db.faculties ++ [f] }
        (mkLinkedUserDoc nu r) with
    | error e =>
      left
      constructor
      · exact ⟨e, by simp [registerFaculty, hEmailFree, hRole, hfs, hus]⟩
      · simp [registerFaculty, hEmailFree, hRole, hfs, hus]
    | ok u =>
      right
      refine ⟨f, u, ?_, ?_, ?_, ?_, ?_, ?_, ?_⟩ <;>
        first
        | simp [registerFaculty, hEmailFree, hRole, hfs, hus]
        | skip
      have he1 : u.email = (mkLinkedUserDoc nu r).email :=
        (userSave_ok_fields _ _ _ hus).1
      have he2 : f.email = (mkFacultyDoc nf r).email :=
        facultySave_ok_email _ _ _ _ hfs
      rw [he1, he2]
      simp [mkLinkedUserDoc, mkFacultyDoc, normalizeEmail, hTrim]

/-- Witness for C1 at the fixture database: a fresh, valid request
against the active fixture role satisfies both preconditions and the
handler lands in the guaranteed all-or-nothing disjunction. -/
theorem registerFaculty_atomic_witness :
    (exDb.users.any fun u => u.email == jsToLower exAddReq.email) = false ∧
    (exDb.roles.any fun ro => ro.rid == exAddReq.role && ro.isActive) = true ∧
    jsTrim exAddReq.email = exAddReq.email ∧
    (((∃ e, (registerFaculty exDb exAddReq 2024 8 4).resp = .saveErr e) ∧
        (registerFaculty exDb exAddReq 2024 8 4).db = exDb) ∨
      (∃ f u, (registerFaculty exDb exAddReq 2024 8 4).resp =
          .created f u (jsToLower exAddReq.email) "Admin@123" ∧
        (registerFaculty exDb exAddReq 2024 8 4).db.faculties = exDb.faculties ++ [f] ∧
        (registerFaculty exDb exAddReq 2024 8 4).db.users = exDb.users ++ [u] ∧
        (registerFaculty exDb exAddReq 2024 8 4).db.roles = exDb.roles ∧
        (registerFaculty exDb exAddReq 2024 8 4).db.classes = exDb.classes ∧
        u.email = f.email ∧
        (registerFaculty exDb exAddReq 2024 8 4).txnOpened = true)) := by
  refine ⟨by decide, by decide, by decide, ?_⟩
  exact registerFaculty_atomic exDb exAddReq 2024 8 4 (by decide) (by decide) (by decide)

/-- C10: the User account created by faculty registration is issued the
default password `Admin@123` (returned as the login credential and stored
hashed), the faculty change-password endpoint rejects exactly `Fcl@1234`
as the forbidden new password, and consequently a faculty user may set
their new password to the registration default `Admin@123`. -/
theorem defaultPassword_admin123 (db : DB) (r : FacultyAddReq)
    (year nf nu uid : Nat) (f : FacultyDoc) (w : UserDoc) (un pw : String)
    (cur : String) (u : UserDoc) :
    ((registerFaculty db r year nf nu).resp = .created f w un pw →
      pw = "Admin@123" ∧ w.passwordHash = bcryptHash "Admin@123") ∧
    (db.users.find? (fun v => v.uid == uid) = some u → u.role = "faculty" →
      cur ≠ "" → bcryptCompare cur u.passwordHash = true →
      changePasswordFaculty db uid cur "Fcl@1234" = (.defaultPwd, db) ∧
      changePwStatus .defaultPwd = 400 ∧
      (changePasswordFaculty db uid cur "Admin@123").1 = .changed) := by
  constructor
  · intro hres
    by_cases h1 : (db.users.any fun v => v.email == jsToLower r.email) = true
    · simp [registerFaculty, h1] at hres
    · rw [Bool.not_eq_true] at h1
      by_cases h2 : (db.roles.any fun ro => ro.rid == r.role && ro.isActive) = true
      · cases hfs : facultySave db year (mkFacultyDoc nf r) with
        | error e => simp [registerFaculty, h1, h2, hfs] at hres
        | ok fc =>
          cases hus : userSave { db with faculties := db.faculties ++ [fc] }
              (mkLinkedUserDoc nu r) with
          | error e => simp [registerFaculty, h1, h2, hfs, hus] at hres
          | ok uc =>
            simp [registerFaculty, h1, h2, hfs, hus] at hres
            obtain ⟨hf, hu, hun, hpw⟩ := hres
            refine ⟨hpw.symm, ?_⟩
            rw [← hu]
            exact (userSave_ok_fields _ _ _ hus).2.1
      · rw [Bool.not_eq_true] at h2
        simp [registerFaculty, h1, h2] at hres
  · intro hfind hrole hcur hcmp
    refine ⟨?_, rfl, ?_⟩
    · have hnl : ¬ jsLength "Fcl@1234" < 6 := by decide
      simp [changePasswordFaculty, hcur, hnl, hfind, hrole, hcmp]
    · have hnl : ¬ jsLength "Admin@123" < 6 := by decide
      simp [changePasswordFaculty, hcur, hnl, hfind, hrole, hcmp]

/-- Witness for C10 at the fixture database: the fixture registration
succeeds with credential password `Admin@123`, and the fixture faculty
user is refused `Fcl@1234` but allowed `Admin@123` as a new password. -/
theorem defaultPassword_admin123_witness :
    exDb.users.find? (fun v => v.uid == (3 : Nat)) = some exUserFaculty ∧
    exUserFaculty.role = "faculty" ∧
    ("Admin@123" : String) ≠ "" ∧
    bcryptCompare "Admin@123" exUserFaculty.passwordHash = true ∧
    changePasswordFaculty exDb 3 "Admin@123" "Fcl@1234" = (.defaultPwd, exDb) ∧
    (changePasswordFaculty exDb 3 "Admin@123" "Admin@123").1 = .changed := by
  refine ⟨by decide, rfl, by decide, by decide, ?_, ?_⟩
  · exact ((defaultPassword_admin123 exDb exAddReq 2024 8 4 3 exFaculty exUserFaculty
      "" "" "Admin@123" exUserFaculty).2 (by decide) rfl (by decide) (by decide)).1
  · exact ((defaultPassword_admin123 exDb exAddReq 2024 8 4 3 exFaculty exUserFaculty
      "" "" "Admin@123" exUserFaculty).2 (by decide) rfl (by decide) (by decide)).2.2

/-- C8: in any state holding a class named `10`, section `A` (stored
uppercased), year `2024-2025`, an otherwise well-formed request to create
`10` / `a` / `2024-2025` is answered 400 as a duplicate and leaves the
database unchanged: the pre-check uppercases the submitted section, so it
collides with the stored one. -/
theorem classAdd_caseInsensitive_dup (db : DB) (t creatorId newCid k : Nat)
    (descr : String) (c : ClassDoc) (hmem : c ∈ db.classes)
    (hname : c.name = "10") (hsect : c.sect = "A")
    (hyear : c.academicYear = "2024-2025")
    (hteacher : (db.faculties.any fun f => f.fid == t) = true)
    (hk : k ≠ 0) :
    classAdd db { name := "10", sect := "a", academicYear := "2024-2025",
                  classTeacher := some t, capacity := k, description := descr }
      creatorId newCid = (.duplicate, db) ∧
    classAddStatus .duplicate = 400 := by
  refine ⟨?_, rfl⟩
  have hdup : (db.classes.any fun d =>
      d.name == jsTrim "10" && d.sect == jsToUpper (jsTrim "a") &&
      d.academicYear == jsTrim "2024-2025") = true := by
    refine List.any_eq_true.2 ⟨c, hmem, ?_⟩
    rw [hname, hsect, hyear]
    decide
  simp [classAdd, hk, hteacher, hdup]

/-- Witness for C8 at the fixture database, which holds the class
`10` / `A` / `2024-2025`. -/
theorem classAdd_caseInsensitive_dup_witness :
    exClass ∈ exDb.classes ∧ exClass.name = "10" ∧ exClass.sect = "A" ∧
    exClass.academicYear = "2024-2025" ∧
    (exDb.faculties.any fun f => f.fid == (7 : Nat)) = true ∧ (30 : Nat) ≠ 0 ∧
    classAdd exDb { name := "10", sect := "a", academicYear := "2024-2025",
                    classTeacher := some 7, capacity := 30, description := "" } 3 12 =
      (.duplicate, exDb) := by
  refine ⟨by decide, rfl, rfl, rfl, by decide, by decide, ?_⟩
  exact (classAdd_caseInsensitive_dup exDb 7 3 12 30 "" exClass (by decide)
    rfl rfl rfl (by decide) (by decide)).1

/-- C9: editing a Class with its own current name / section / year (and
teacher, capacity, description) is not rejected as a duplicate — the
pre-check excludes the edited document — and the update succeeds with
status 200; likewise editing a Role with its own unchanged name
succeeds. -/
theorem edit_unchanged_no_false_duplicate (db : DB) (c : ClassDoc) (role : RoleDoc)
    (hfc : db.classes.find? (fun d => d.cid == c.cid) = some c)
    (hnameT : jsTrim c.name = c.name)
    (hsectT : jsToUpper (jsTrim c.sect) = c.sect)
    (hyearT : jsTrim c.academicYear = c.academicYear)
    (hdescT : c.description = "" ∨ jsTrim c.description = c.description)
    (hnodup : (db.classes.any fun d => d.cid != c.cid && d.name == c.name &&
      d.sect == c.sect && d.academicYear == c.academicYear) = false)
    (hvalid : classFieldsValid db c = true)
    (hfr : db.roles.find? (fun ro => ro.rid == role.rid && ro.isActive) = some role)
    (hrnameT : jsTrim role.name = role.name)
    (hrdescT : role.description = "" ∨ jsTrim role.description = role.description)
    (hrvalid : roleFieldsValid role = true) :
    (classEdit db c.cid { name := c.name, sect := c.sect,
                          academicYear := c.academicYear,
                          classTeacher := .oid c.classTeacher,
                          capacity := c.capacity,
                          description := c.description }).1 = .updated c ∧
    classEditStatus (.updated c) = 200 ∧
    (roleEdit db role.rid role.name role.description).1 = .updated role ∧
    roleEditStatus (.updated role) = 200 := by
  have hv := hvalid
  simp only [classFieldsValid, Bool.and_eq_true, decide_eq_true_eq] at hv
  obtain ⟨⟨⟨⟨⟨⟨⟨⟨h1, h2⟩, h3⟩, h4⟩, h5⟩, h6⟩, h7⟩, h8⟩, h9⟩ := hv
  have hne1 : ¬ (c.name = "") := fun he => by
    rw [he] at h1; exact absurd h1 (by decide)
  have hne2 : ¬ (c.sect = "") := fun he => by
    rw [he] at h3; exact absurd h3 (by decide)
  have hne3 : ¬ (c.academicYear = "") := fun he => by
    rw [he] at h5; exact absurd h5 (by decide)
  have hcap : ¬ (c.capacity = 0) := by omega
  have hdesc : (if c.description = "" then "" else jsTrim c.description) =
      c.description := by
    by_cases hd : c.description = ""
    · simp [hd]
    · rcases hdescT with h | h
      · exact absurd h hd
      · simp [hd, h]
  have hrv := hrvalid
  simp only [roleFieldsValid, Bool.and_eq_true, decide_eq_true_eq] at hrv
  obtain ⟨⟨hr1, hr2⟩, hr3⟩ := hrv
  have hrne : ¬ (role.name = "") := fun he => by
    rw [he] at hr1; exact absurd hr1 (by decide)
  have hrdesc : (if role.description = "" then "" else jsTrim role.description) =
      role.description := by
    by_cases hd : role.description = ""
    · simp [hd]
    · rcases hrdescT with h | h
      · exact absurd h hd
      · simp [hd, h]
  refine ⟨?_, rfl, ?_, rfl⟩
  · simp only [classEdit]
    simp only [hnameT, hsectT, hyearT, hdesc]
    simp [hne1, hne2, hne3, hcap, hfc, hnodup, hvalid]
  · simp only [roleEdit]
    simp only [hrnameT, hrdesc]
    simp [hrne, hfr, hrvalid]

/-- Witness for C9 at the fixture database: resubmitting the fixture
class with its current values and the fixture role with its current name
both succeed. -/
theorem edit_unchanged_no_false_duplicate_witness :
    exDb.classes.find? (fun d => d.cid == exClass.cid) = some exClass ∧
    classFieldsValid exDb exClass = true ∧
    exDb.roles.find? (fun ro => ro.rid == exRole.rid && ro.isActive) = some exRole ∧
    roleFieldsValid exRole = true ∧
    (classEdit exDb exClass.cid { name := exClass.name, sect := exClass.sect,
                                  academicYear := exClass.academicYear,
                                  classTeacher := .oid exClass.classTeacher,
                                  capacity := exClass.capacity,
                                  description := exClass.description }).1 =
      .updated exClass ∧
    (roleEdit exDb exRole.rid exRole.name exRole.description).1 = .updated exRole := by
  refine ⟨by decide, by decide, by decide, by decide, ?_, ?_⟩
  · exact (edit_unchanged_no_false_duplicate exDb exClass exRole (by decide)
      (by decide) (by decide) (by decide) (Or.inl (by decide)) (by decide)
      (by decide) (by decide) (by decide) (Or.inr (by decide)) (by decide)).1
  · exact (edit_unchanged_no_false_duplicate exDb exClass exRole (by decide)
      (by decide) (by decide) (by decide) (Or.inl (by decide)) (by decide)
      (by decide) (by decide) (by decide) (Or.inr (by decide)) (by decide)).2.2.1

end NotesApp
